import Mathlib

/-
Verification development for the respec repository.

The development shallowly embeds the three source files:
  tools/respecDocWriter.js   (the timed remote-document rendering pipeline)
  src/core/examples.js       (example numbering and reporting)
and the platform / collaborator behaviour they rely on (URL parts,
encodeURIComponent / decodeURIComponent, path resolution, the puppeteer
session as an abstract resource).

Effectful code is modelled by a pure function from an explicit World record
(the responses of the outside world: filesystem, browser process, network,
elapsed wall-clock time) to an outcome together with a trace of observable
events.  Strings are Lean String / List Char; machine arithmetic does not
occur in the modelled code.
-/

set_option maxHeartbeats 2000000

namespace Respec

/-! ### Generic string helpers (substring occurrence, used to state claims
about error messages) -/

/-- Test whether the list `s` starts with `pat`. -/
def leadsWith : List Char → List Char → Bool
  | [], _ => true
  | _ :: _, [] => false
  | p :: ps, s :: ss => p == s && leadsWith ps ss

/-- Test whether `pat` occurs contiguously inside the second list. -/
def occursIn (pat : List Char) : List Char → Bool
  | [] => leadsWith pat []
  | s :: ss => leadsWith pat (s :: ss) || occursIn pat ss

/-- Substring test on strings: `strContains s pat` holds when `pat` occurs in `s`. -/
def strContains (s pat : String) : Bool := occursIn pat.toList s.toList

theorem leadsWith_append (pat t : List Char) : leadsWith pat (pat ++ t) = true := by
  induction pat with
  | nil => rfl
  | cons p ps ih => simp [leadsWith, ih]

theorem occursIn_nil (s : List Char) : occursIn [] s = true := by
  cases s with
  | nil => rfl
  | cons c cs => simp [occursIn, leadsWith]

theorem occursIn_append (a pat b : List Char) :
    occursIn pat (a ++ (pat ++ b)) = true := by
  induction a with
  | nil =>
    simp only [List.nil_append]
    cases pat with
    | nil => exact occursIn_nil b
    | cons p ps =>
      have h := leadsWith_append (p :: ps) b
      simp only [List.cons_append] at h ⊢
      simp [occursIn, h]
  | cons x xs ih =>
    simp only [List.cons_append, occursIn]
    simp [ih]

theorem strContains_of_eq_append (s pre mid post : String)
    (h : s = pre ++ mid ++ post) : strContains s mid = true := by
  subst h
  show occursIn mid.toList (pre ++ mid ++ post).toList = true
  have h1 : (pre ++ mid ++ post).toList = pre.toList ++ mid.toList ++ post.toList := by
    show (pre ++ mid ++ post).data = pre.data ++ mid.data ++ post.data
    rw [String.data_append, String.data_append]
  rw [h1, List.append_assoc]
  exact occursIn_append pre.toList mid.toList post.toList

/-! ### JS `encodeURIComponent` / `decodeURIComponent`

`decodeURIComponent` is invoked by the modern extraction path
(respecDocWriter.js line 203); `encodeURIComponent` is what the in-page
exporter used to build the data URL.  Both are modelled from their
ECMAScript semantics: a character is either kept verbatim (the unreserved
set of `encodeURIComponent`) or replaced by the `%XX` uppercase-hex
escapes of its UTF-8 bytes; decoding parses `%XX` escape runs back through
UTF-8 and leaves every other character untouched. -/

/-- Uppercase hexadecimal digit for `n < 16` (the output alphabet of
`encodeURIComponent`). -/
def hexDigitChar (n : Nat) : Char :=
  if n < 10 then Char.ofNat (48 + n) else Char.ofNat (55 + n)

/-- Value of a hexadecimal digit, case-insensitive (as accepted by
`decodeURIComponent`). -/
def hexCharVal (c : Char) : Option Nat :=
  if 48 ≤ c.toNat && c.toNat ≤ 57 then some (c.toNat - 48)
  else if 65 ≤ c.toNat && c.toNat ≤ 70 then some (c.toNat - 55)
  else if 97 ≤ c.toNat && c.toNat ≤ 102 then some (c.toNat - 87)
  else none

/-- Parse two leading hex digits into a byte, returning the rest. -/
def hexPairAt : List Char → Option (Nat × List Char)
  | c1 :: c2 :: rest =>
    match hexCharVal c1, hexCharVal c2 with
    | some a, some b => some (a * 16 + b, rest)
    | _, _ => none
  | _ => none

/-- Parse a `%XX` escape that must be a UTF-8 continuation byte (`0x80..0xBF`). -/
def contByteAt : List Char → Option (Nat × List Char)
  | c0 :: rest =>
    if c0 == '%' then
      match hexPairAt rest with
      | some (b, r) => if 128 ≤ b && b < 192 then some (b, r) else none
      | none => none
    else none
  | [] => none

/-- UTF-8 bytes of a Unicode scalar value (as natural numbers `< 256`). -/
def utf8Bytes (n : Nat) : List Nat :=
  if n < 128 then [n]
  else if n < 2048 then [192 + n / 64, 128 + n % 64]
  else if n < 65536 then [224 + n / 4096, 128 + n / 64 % 64, 128 + n % 64]
  else [240 + n / 262144, 128 + n / 4096 % 64, 128 + n / 64 % 64, 128 + n % 64]

/-- The `%XX` escape of one byte. -/
def pctTriple (b : Nat) : List Char := ['%', hexDigitChar (b / 16), hexDigitChar (b % 16)]

/-- Characters `encodeURIComponent` leaves verbatim: ASCII alphanumerics and
the nine marks with code points 45 95 46 33 126 42 39 40 41
(hyphen, underscore, dot, bang, tilde, asterisk, single quote, parens). -/
def isUnreservedURI (c : Char) : Bool :=
  c.isAlphanum || [45, 95, 46, 33, 126, 42, 39, 40, 41].contains c.toNat

/-- JS `encodeURIComponent` on one character. -/
def encodeURIComp1 (c : Char) : List Char :=
  if isUnreservedURI c then [c] else (utf8Bytes c.toNat).flatMap pctTriple

/-- JS `encodeURIComponent` on a whole string (as a character list). -/
def encodeURIComp (s : List Char) : List Char := s.flatMap encodeURIComp1

/-- One decoding step of `decodeURIComponent`, parameterised by the decoder
for the remainder; returns `none` where JS throws `URIError`. -/
def decodeStep (dec : List Char → Option (List Char)) (c : Char) (rest : List Char) :
    Option (List Char) :=
  if c == '%' then
    (hexPairAt rest).bind fun br =>
      let b := br.1
      let r1 := br.2
      if b < 128 then
        (dec r1).map fun out => Char.ofNat b :: out
      else if b < 194 then none
      else if b < 224 then
        (contByteAt r1).bind fun p2 =>
          (dec p2.2).map fun out =>
            Char.ofNat ((b - 192) * 64 + (p2.1 - 128)) :: out
      else if b < 240 then
        (contByteAt r1).bind fun p2 =>
          (contByteAt p2.2).bind fun p3 =>
            let v := (b - 224) * 4096 + (p2.1 - 128) * 64 + (p3.1 - 128)
            if 2048 ≤ v && (v < 55296 || 57343 < v) then
              (dec p3.2).map fun out => Char.ofNat v :: out
            else none
      else if b < 245 then
        (contByteAt r1).bind fun p2 =>
          (contByteAt p2.2).bind fun p3 =>
            (contByteAt p3.2).bind fun p4 =>
              let v := (b - 240) * 262144 + (p2.1 - 128) * 4096 +
                (p3.1 - 128) * 64 + (p4.1 - 128)
              if 65536 ≤ v && v < 1114112 then
                (dec p4.2).map fun out => Char.ofNat v :: out
              else none
      else none
  else
    (dec rest).map fun out => c :: out

/-- Worker for `decodeURIComponent`; `fuel` bounds the recursion and is
instantiated with the input length (each step consumes at least one
character). -/
def decodeURICompAux : Nat → List Char → Option (List Char)
  | _, [] => some []
  | 0, _ :: _ => none
  | fuel + 1, c :: rest => decodeStep (decodeURICompAux fuel) c rest

/-- JS `decodeURIComponent` (None models a thrown `URIError`). -/
def decodeURIComp (s : List Char) : Option (List Char) :=
  decodeURICompAux s.length s

theorem hexRound : ∀ n, n < 16 → hexCharVal (hexDigitChar n) = some n := by decide

theorem hexPairAt_pct (b : Nat) (hb : b < 256) (t : List Char) :
    hexPairAt (hexDigitChar (b / 16) :: hexDigitChar (b % 16) :: t) = some (b, t) := by
  have h1 : hexCharVal (hexDigitChar (b / 16)) = some (b / 16) := hexRound _ (by omega)
  have h2 : hexCharVal (hexDigitChar (b % 16)) = some (b % 16) := hexRound _ (by omega)
  simp only [hexPairAt, h1, h2]
  have : b / 16 * 16 + b % 16 = b := by omega
  rw [this]

theorem contByteAt_pct (b : Nat) (h1 : 128 ≤ b) (h2 : b < 192) (t : List Char) :
    contByteAt (pctTriple b ++ t) = some (b, t) := by
  have hp := hexPairAt_pct b (by omega) t
  have hb : ('%' == '%') = true := by decide
  simp only [pctTriple, List.cons_append, List.nil_append, contByteAt, hp]
  rw [if_pos hb, if_pos]
  simp only [Bool.and_eq_true, decide_eq_true_eq]
  omega

theorem isUnreservedURI_not_pct (c : Char) (h : isUnreservedURI c = true) :
    (c == '%') = false := by
  cases hb : (c == '%') with
  | false => rfl
  | true =>
    have hc : c = '%' := beq_iff_eq.mp hb
    rw [hc] at h
    exact absurd h (by decide)

theorem char_valid_facts (c : Char) :
    c.toNat < 1114112 ∧ (c.toNat < 55296 ∨ 57343 < c.toNat) := by
  have h := c.valid
  rcases h with h | h
  · refine ⟨?_, Or.inl h⟩
    show c.val.toNat < 1114112
    omega
  · exact ⟨h.2, Or.inr h.1⟩

theorem decodeURICompAux_succ (fuel : Nat) (c : Char) (rest : List Char) :
    decodeURICompAux (fuel + 1) (c :: rest) = decodeStep (decodeURICompAux fuel) c rest :=
  rfl

theorem encodeURIComp_cons (c : Char) (m : List Char) :
    encodeURIComp (c :: m) = encodeURIComp1 c ++ encodeURIComp m := by
  rw [encodeURIComp, List.flatMap_cons]
  rfl

theorem decodeAux_encode : ∀ (m : List Char) (fuel : Nat),
    (encodeURIComp m).length ≤ fuel →
    decodeURICompAux fuel (encodeURIComp m) = some m := by
  have hpct : ('%' == '%') = true := rfl
  intro m
  induction m with
  | nil =>
    intro fuel _
    cases fuel <;> rfl
  | cons c m2 ih =>
    intro fuel hfuel
    rw [encodeURIComp_cons] at hfuel ⊢
    by_cases hu : isUnreservedURI c = true
    · rw [encodeURIComp1, if_pos hu] at hfuel ⊢
      simp only [List.length_append, List.length_cons, List.length_nil] at hfuel
      cases fuel with
      | zero => omega
      | succ f =>
        simp only [List.cons_append, List.nil_append]
        rw [decodeURICompAux_succ, decodeStep, isUnreservedURI_not_pct c hu]
        simp only [Bool.false_eq_true, if_false]
        rw [ih f (by omega)]
        rfl
    · rw [encodeURIComp1, if_neg hu] at hfuel ⊢
      have hv := char_valid_facts c
      by_cases h128 : c.toNat < 128
      · -- one UTF-8 byte
        rw [utf8Bytes, if_pos h128] at hfuel ⊢
        simp only [List.flatMap_cons, List.flatMap_nil, List.append_nil, pctTriple,
          List.cons_append, List.nil_append] at hfuel ⊢
        simp only [List.length_cons] at hfuel
        cases fuel with
        | zero => omega
        | succ f =>
          rw [decodeURICompAux_succ, decodeStep, if_pos hpct, hexPairAt_pct c.toNat (by omega)]
          simp only [Option.some_bind]
          rw [if_pos h128, ih f (by omega)]
          simp only [Option.map_some', Char.ofNat_toNat]
      · by_cases h2048 : c.toNat < 2048
        · -- two UTF-8 bytes
          rw [utf8Bytes, if_neg h128, if_pos h2048] at hfuel ⊢
          simp only [List.flatMap_cons, List.flatMap_nil, List.append_nil, pctTriple,
            List.cons_append, List.nil_append] at hfuel ⊢
          simp only [List.length_cons] at hfuel
          cases fuel with
          | zero => omega
          | succ f =>
            rw [decodeURICompAux_succ, decodeStep, if_pos hpct, hexPairAt_pct (192 + c.toNat / 64) (by omega)]
            simp only [Option.some_bind]
            rw [if_neg (by omega), if_neg (by omega), if_pos (by omega)]
            have hcont := contByteAt_pct (128 + c.toNat % 64) (by omega) (by omega)
              (encodeURIComp m2)
            simp only [pctTriple, List.cons_append, List.nil_append] at hcont
            rw [hcont]
            simp only [Option.some_bind]
            rw [ih f (by omega)]
            have hval : (192 + c.toNat / 64 - 192) * 64 + (128 + c.toNat % 64 - 128)
                = c.toNat := by omega
            simp only [Option.map_some', hval, Char.ofNat_toNat]
        · by_cases h65536 : c.toNat < 65536
          · -- three UTF-8 bytes
            rw [utf8Bytes, if_neg h128, if_neg h2048, if_pos h65536] at hfuel ⊢
            simp only [List.flatMap_cons, List.flatMap_nil, List.append_nil, pctTriple,
              List.cons_append, List.nil_append] at hfuel ⊢
            simp only [List.length_cons] at hfuel
            cases fuel with
            | zero => omega
            | succ f =>
              rw [decodeURICompAux_succ, decodeStep, if_pos hpct,
                hexPairAt_pct (224 + c.toNat / 4096) (by omega)]
              simp only [Option.some_bind]
              rw [if_neg (by omega), if_neg (by omega), if_neg (by omega),
                if_pos (by omega)]
              have hcont2 := contByteAt_pct (128 + c.toNat / 64 % 64) (by omega) (by omega)
                (pctTriple (128 + c.toNat % 64) ++ encodeURIComp m2)
              have hcont3 := contByteAt_pct (128 + c.toNat % 64) (by omega) (by omega)
                (encodeURIComp m2)
              simp only [pctTriple, List.cons_append, List.nil_append] at hcont2 hcont3
              rw [hcont2]
              simp only [Option.some_bind]
              rw [hcont3]
              simp only [Option.some_bind]
              have hval : (224 + c.toNat / 4096 - 224) * 4096 +
                  (128 + c.toNat / 64 % 64 - 128) * 64 + (128 + c.toNat % 64 - 128)
                  = c.toNat := by omega
              simp only [hval]
              rw [if_pos (by simp only [Bool.and_eq_true, Bool.or_eq_true,
                decide_eq_true_eq]; omega)]
              rw [ih f (by omega)]
              simp only [Option.map_some', Char.ofNat_toNat]
          · -- four UTF-8 bytes
            rw [utf8Bytes, if_neg h128, if_neg h2048, if_neg h65536] at hfuel ⊢
            simp only [List.flatMap_cons, List.flatMap_nil, List.append_nil, pctTriple,
              List.cons_append, List.nil_append] at hfuel ⊢
            simp only [List.length_cons] at hfuel
            cases fuel with
            | zero => omega
            | succ f =>
              rw [decodeURICompAux_succ, decodeStep, if_pos hpct,
                hexPairAt_pct (240 + c.toNat / 262144) (by omega)]
              simp only [Option.some_bind]
              rw [if_neg (by omega), if_neg (by omega), if_neg (by omega),
                if_neg (by omega), if_pos (by omega)]
              have hcont2 := contByteAt_pct (128 + c.toNat / 4096 % 64) (by omega) (by omega)
                (pctTriple (128 + c.toNat / 64 % 64) ++
                  (pctTriple (128 + c.toNat % 64) ++ encodeURIComp m2))
              have hcont3 := contByteAt_pct (128 + c.toNat / 64 % 64) (by omega) (by omega)
                (pctTriple (128 + c.toNat % 64) ++ encodeURIComp m2)
              have hcont4 := contByteAt_pct (128 + c.toNat % 64) (by omega) (by omega)
                (encodeURIComp m2)
              simp only [pctTriple, List.cons_append, List.nil_append] at hcont2 hcont3 hcont4
              rw [hcont2]
              simp only [Option.some_bind]
              rw [hcont3]
              simp only [Option.some_bind]
              rw [hcont4]
              simp only [Option.some_bind]
              have hval : (240 + c.toNat / 262144 - 240) * 262144 +
                  (128 + c.toNat / 4096 % 64 - 128) * 4096 +
                  (128 + c.toNat / 64 % 64 - 128) * 64 + (128 + c.toNat % 64 - 128)
                  = c.toNat := by omega
              simp only [hval]
              rw [if_pos (by simp only [Bool.and_eq_true, decide_eq_true_eq]; omega)]
              rw [ih f (by omega)]
              simp only [Option.map_some', Char.ofNat_toNat]

/-- Round trip of the JS percent-coding pair on every string. -/
theorem decodeURIComp_encodeURIComp (m : List Char) :
    decodeURIComp (encodeURIComp m) = some m :=
  decodeAux_encode m (encodeURIComp m).length (Nat.le_refl _)

/-! ### The modern extraction path: data-URL strip and decode
(respecDocWriter.js, evaluateHTML lines 196-203) -/

/-- JS regex word character class (ASCII letters, digits, underscore). -/
def isWordChar (c : Char) : Bool := c.isAlphanum || c == '_'

/-- Drop a literal from the front of a list; `none` when it does not lead. -/
def dropLit : List Char → List Char → Option (List Char)
  | [], s => some s
  | _ :: _, [] => none
  | l :: ls, s :: ss => if l == s then dropLit ls ss else none

/-- Drop a maximal nonempty run of word characters (the greedy `\w+`). -/
def dropWord1 (s : List Char) : Option (List Char) :=
  if (s.takeWhile isWordChar).isEmpty then none else some (s.dropWhile isWordChar)

/-- Anchored match of the pattern `data:\w+\/\w+;charset=utf-8,` at the head
of a list, returning the remainder on success.  Greedy `\w+` coincides with
maximal munch here because the delimiters `/` and `;` are not word
characters. -/
def matchDataHead (s : List Char) : Option (List Char) :=
  (dropLit "data:".toList s).bind fun r1 =>
    (dropWord1 r1).bind fun r2 =>
      (dropLit ['/'] r2).bind fun r3 =>
        (dropWord1 r3).bind fun r4 =>
          dropLit ";charset=utf-8,".toList r4

/-- Model of `dataURL.replace(/^data:\w+\/\w+;charset=utf-8,/, "")` from
evaluateHTML line 202: when the anchored pattern matches a leading segment,
that segment is removed; otherwise the string is unchanged. -/
def stripDataURLHead (s : List Char) : List Char :=
  (matchDataHead s).getD s

/-- The decoding performed by the modern extraction path (lines 202-203):
strip the data-URL prefix, then `decodeURIComponent` the remainder. -/
def modernDecode (dataURL : List Char) : Option (List Char) :=
  decodeURIComp (stripDataURLHead dataURL)

/-- Modelled from the spec: `rsDocToDataURL("text/html")`, the modern in-page
export routine of the `core/exporter` module, which is not among the source
files; per the spec it returns the document markup as a data URL with the
fixed prefix `data:<mime>;charset=utf-8,` followed by the percent-encoding
of the markup. -/
def rsDocToDataURL (markup : List Char) : List Char :=
  "data:text/html;charset=utf-8,".toList ++ encodeURIComp markup

theorem dropLit_leading (a t : List Char) : dropLit a (a ++ t) = some t := by
  induction a with
  | nil => rfl
  | cons x xs ih => simp [dropLit, ih]

theorem takeWhile_words (w t : List Char) (hw : ∀ c ∈ w, isWordChar c = true) :
    (w ++ t).takeWhile isWordChar = w ++ t.takeWhile isWordChar := by
  induction w with
  | nil => rfl
  | cons x xs ih =>
    have hx : isWordChar x = true := hw x (List.mem_cons_self x xs)
    simp only [List.cons_append, List.takeWhile_cons, hx, if_true]
    rw [ih (fun c hc => hw c (List.mem_cons_of_mem x hc))]

theorem dropWhile_words (w t : List Char) (hw : ∀ c ∈ w, isWordChar c = true) :
    (w ++ t).dropWhile isWordChar = t.dropWhile isWordChar := by
  induction w with
  | nil => rfl
  | cons x xs ih =>
    have hx : isWordChar x = true := hw x (List.mem_cons_self x xs)
    simp only [List.cons_append, List.dropWhile_cons, hx, if_true]
    exact ih (fun c hc => hw c (List.mem_cons_of_mem x hc))

theorem dropWord1_words (w : List Char) (d : Char) (t : List Char)
    (hne : w ≠ []) (hw : ∀ c ∈ w, isWordChar c = true)
    (hd : isWordChar d = false) :
    dropWord1 (w ++ d :: t) = some (d :: t) := by
  rw [dropWord1, takeWhile_words w (d :: t) hw, dropWhile_words w (d :: t) hw]
  simp only [List.takeWhile_cons, List.dropWhile_cons, hd]
  simp only [Bool.false_eq_true, if_false]
  rw [if_neg]
  simp [List.isEmpty_iff, hne]

/-- Stripping the fixed prefix from a well-formed data URL recovers exactly
the payload, whatever the payload is. -/
theorem stripDataURLHead_prefixed (payload : List Char) :
    stripDataURLHead ("data:text/html;charset=utf-8,".toList ++ payload) = payload := by
  have hsplit : "data:text/html;charset=utf-8,".toList ++ payload
      = "data:".toList ++ ("text".toList ++ ('/' :: ("html".toList ++
        (';' :: "charset=utf-8,".toList ++ payload)))) := by
    simp [String.toList]
  rw [stripDataURLHead, matchDataHead, hsplit, dropLit_leading, Option.some_bind]
  have h1 : dropWord1 ("text".toList ++ ('/' :: ("html".toList ++
      (';' :: "charset=utf-8,".toList ++ payload)))) = some ('/' :: ("html".toList ++
      (';' :: "charset=utf-8,".toList ++ payload))) := by
    apply dropWord1_words <;> decide
  rw [h1, Option.some_bind]
  have h2 : dropLit ['/'] ('/' :: ("html".toList ++
      (';' :: "charset=utf-8,".toList ++ payload))) = some ("html".toList ++
      (';' :: "charset=utf-8,".toList ++ payload)) := by
    rw [← List.singleton_append]
    exact dropLit_leading _ _
  rw [h2, Option.some_bind]
  have h3 : dropWord1 ("html".toList ++ (';' :: "charset=utf-8,".toList ++ payload))
      = some (';' :: "charset=utf-8,".toList ++ payload) := by
    rw [List.cons_append]
    apply dropWord1_words <;> decide
  rw [h3, Option.some_bind]
  have h4 : dropLit ";charset=utf-8,".toList (';' :: "charset=utf-8,".toList ++ payload)
      = some payload := by
    have hmk : ';' :: "charset=utf-8,".toList ++ payload
        = ";charset=utf-8,".toList ++ payload := by simp [String.toList]
    rw [hmk]
    exact dropLit_leading _ _
  rw [h4, Option.getD_some]

/-! ### Version detection and the extraction gate
(getVersion lines 215-220, evaluateHTML lines 177-213) -/

/-- Digit-prefix value: the longest leading run of decimal digits, `none`
when there is none (models the NaN result of `parseInt`). -/
def digitsVal (s : List Char) : Option Nat :=
  let ds := s.takeWhile Char.isDigit
  if ds.isEmpty then none
  else some (ds.foldl (fun a c => a * 10 + (c.toNat - 48)) 0)

/-- JS `parseInt(str, 10)`: skip leading whitespace, optional sign, then the
longest digit prefix; `none` models NaN. -/
def parseIntJS (s : List Char) : Option Int :=
  let t := s.dropWhile fun c => c == ' ' || c == '\t' || c == '\n' || c == '\r'
  match t with
  | '-' :: u => (digitsVal u).map fun n => -(n : Int)
  | '+' :: u => (digitsVal u).map fun n => (n : Int)
  | _ => (digitsVal t).map fun n => (n : Int)

/-- JS `str.split(".")`: groups between dot separators. -/
def splitOnDot : List Char → List (List Char)
  | [] => [[]]
  | c :: rest =>
    if c == '.' then [] :: splitOnDot rest
    else
      match splitOnDot rest with
      | [] => [[c]]
      | g :: gs => (c :: g) :: gs

/-- getVersion (lines 215-220): the "Developer Edition" sentinel maps to the
triple 123456789.0.0; otherwise the version string is split on dots and each
component parsed with `parseInt` (a `none` entry models NaN). -/
def getVersion (respecVersion : String) : List (Option Int) :=
  if respecVersion = "Developer Edition" then [some 123456789, some 0, some 0]
  else (splitOnDot respecVersion.toList).map parseIntJS

/-- JS `x < k` where `x` may be NaN or undefined (both compare false). -/
def jsLtNum (x : Option Int) (k : Int) : Bool :=
  match x with
  | some v => v < k
  | none => false

/-- JS `x === k` where `x` may be NaN or undefined (both compare false). -/
def jsEqNum (x : Option Int) (k : Int) : Bool :=
  match x with
  | some v => v == k
  | none => false

/-- The version gate of evaluateHTML line 181:
`major < 20 || (major === 20 && minor < 10)` after
`const [major, minor] = version` (a missing entry is undefined). -/
def routesLegacy (version : List (Option Int)) : Bool :=
  let major := version.getD 0 none
  let minor := version.getD 1 none
  jsLtNum major 20 || (jsEqNum major 20 && jsLtNum minor 10)

/-- Spec-side definition: lexicographic strict order on (major, minor, patch). -/
def specVerLt (a b : Nat × Nat × Nat) : Prop :=
  a.1 < b.1 ∨ (a.1 = b.1 ∧ (a.2.1 < b.2.1 ∨ (a.2.1 = b.2.1 ∧ a.2.2 < b.2.2)))

/-- The remaining getter of `createTimer` (lines 222-230):
`Math.max(0, duration - spent)`, via truncated subtraction. -/
def timerRemaining (duration spent : Nat) : Nat := duration - spent

/-- The rejection message of the `timeout` helper (lines 206-212). -/
def readinessTimeoutMsg (ms : Nat) : String :=
  "Timeout: document.respecIsReady didn\x27t resolve in " ++ toString ms ++ "ms."

/-- The `timeout` helper (lines 206-212): races the promise against a timer
of `ms` milliseconds.  `settled = some o` means the promise settled (with
outcome `o`) before the timer fired; `none` means the timer fired first. -/
def timeoutRace (settled : Option (Except String Unit)) (ms : Nat) : Except String Unit :=
  match settled with
  | some o => o
  | none => Except.error (readinessTimeoutMsg ms)

/-- The compatibility advisory logged on the legacy path (lines 182-185). -/
def advisoryMsg (respecVersionStr : String) : String :=
  "👴🏽  Ye Olde ReSpec version detected! Please update to 20.10.0 or above. "
    ++ "Your version: " ++ respecVersionStr ++ "."

def uriMalformedMsg : String := "URIError: URI malformed"

/-- Remote-context responses consumed by evaluateHTML. -/
structure EvalEnv where
  readyFirst : Bool
  readyOutcome : Except String Unit
  legacyModule : Except String (List Char)
  modernModule : Except String (List Char)

/-- The legacy branch (lines 189-194): `require(["ui/save-html"])` then
`exportDocument("html", "text/html")`; the environment supplies either the
module-load failure or the exported markup. -/
def legacyExtract (env : EvalEnv) : Except String (List Char) := env.legacyModule

/-- The modern branch (lines 196-203): `require(["core/exporter"])`, then
`rsDocToDataURL("text/html")` whose result the environment supplies, then the
strip-and-decode of lines 202-203. -/
def modernExtract (env : EvalEnv) : Except String (List Char) :=
  match env.modernModule with
  | Except.error e => Except.error e
  | Except.ok dataURL =>
    match modernDecode dataURL with
    | some m => Except.ok m
    | none => Except.error uriMalformedMsg

/-- evaluateHTML (lines 177-213): wait for readiness against the serialised
`timer.remaining`, then extract via the version-selected path.  Returns the
result together with the list of console warnings emitted. -/
def evaluateHTML (version : List (Option Int)) (remaining : Nat) (env : EvalEnv)
    (respecVersionStr : String) : Except String (List Char) × List String :=
  match timeoutRace (if env.readyFirst then some env.readyOutcome else none) remaining with
  | Except.error e => (Except.error e, [])
  | Except.ok _ =>
    if routesLegacy version then (legacyExtract env, [advisoryMsg respecVersionStr])
    else (modernExtract env, [])

/-! ### The diagnostic bridge (fetchAndWrite lines 76-86) -/

/-- The two diagnostic event kinds; the remote listener loop registers
exactly the DOM event names "respecwarn" and "respecerror" (lines 80-86). -/
inductive DiagKind
  | error
  | warning
deriving DecidableEq, Repr

structure DiagEvent (α : Type) where
  kind : DiagKind
  detail : α

/-- DOM event name of each kind. -/
def eventName : DiagKind → String
  | DiagKind.error => "respecerror"
  | DiagKind.warning => "respecwarn"

/-- The `{type, detail}` record pushed through the exposed function. -/
structure BridgeMsg (α : Type) where
  type : String
  detail : α

/-- Remote-side forwarding (lines 80-86): each diagnostic event dispatched on
the document is forwarded, in emission order, as `{type: evName, detail}`. -/
def remoteForward {α : Type} (es : List (DiagEvent α)) : List (BridgeMsg α) :=
  es.map fun e => ⟨eventName e.kind, e.detail⟩

/-- A controller-side callback invocation. -/
inductive Delivery (α : Type)
  | onError (d : α)
  | onWarning (d : α)
  | dropped
deriving DecidableEq, Repr

/-- The exposed controller function `onRespecErrorOrWarning` (lines 76-79):
dispatch strictly on the `type` field; any other type invokes nothing. -/
def onRespecErrorOrWarning {α : Type} (e : BridgeMsg α) : Delivery α :=
  if e.type = "respecerror" then Delivery.onError e.detail
  else if e.type = "respecwarn" then Delivery.onWarning e.detail
  else Delivery.dropped

/-- The deliveries produced for a list of raised diagnostic events. -/
def bridgeDeliveries {α : Type} (es : List (DiagEvent α)) : List (Delivery α) :=
  (remoteForward es).map onRespecErrorOrWarning

/-- Spec-side expectation: error kind invokes onError with the detail,
warning kind invokes onWarning. -/
def specExpectedDelivery {α : Type} (e : DiagEvent α) : Delivery α :=
  match e.kind with
  | DiagKind.error => Delivery.onError e.detail
  | DiagKind.warning => Delivery.onWarning e.detail

/-! ### The fetchAndWrite pipeline (lines 28-41, 56-116) -/

/-- The parsed parts of `new URL(src)` that the pipeline reads. -/
structure URLRec where
  origin : String
  pathname : String
  search : String

/-- A transport response (`page.goto` resolution). -/
structure Response where
  ok : Bool
  status : Nat

/-- The recognised options of fetchAndWrite (lines 57-64), callbacks and
hooks excepted (the hooks are modelled as world responses, the diagnostic
callbacks separately via `bridgeDeliveries`). -/
structure Options where
  timeout : Nat
  disableSandbox : Bool
  debug : Bool

/-- The responses of the outside world to one pipeline run.  The two
`elapsedAt…` fields are the wall-clock milliseconds already spent when the
respective point is reached (they feed the deadline tracker). -/
structure World where
  tmpdir : String
  mkdtempSuffix : String
  mkdtempOk : Bool
  launchOk : Bool
  newPageOk : Bool
  navResult : Except String Response
  isRespecDoc : Bool
  respecVersionAppears : Bool
  respecVersionStr : String
  elapsedAtNav : Nat
  elapsedAtEval : Nat
  eval : EvalEnv
  beforeWriteOk : Bool
  writeOk : Bool
  pageCloseOk : Bool
  closeOk : Bool
  closeErrMsg : String
  cwd : String

/-- Observable events of one run, in order of occurrence. -/
inductive Ev
  | mkdtempDir (dir : String)
  | launch (userDataDir : String) (noSandbox : Bool) (devtools : Bool)
  | navigate (bound : Nat)
  | consoleWarn (msg : String)
  | stdoutWrite (data : List Char)
  | fsWrite (path : String) (data : List Char)
  | consoleError (msg : String)
  | processExit (code : Nat)
  | beforeWriteHook
  | pageClose
  | browserClose
deriving DecidableEq, Repr

/-- The distinct fatal-throw sites of the pipeline, each carrying its
message. -/
inductive FatalError
  | mkdtempErr (m : String)
  | launchErr (m : String)
  | newPageErr (m : String)
  | navErr (m : String)
  | transportErr (m : String)
  | notRespecErr (m : String)
  | waitVersionErr (m : String)
  | genHTMLErr (m : String)
  | beforeWriteErr (m : String)
  | pageCloseErr (m : String)
  | closeErr (m : String)
deriving DecidableEq, Repr

/-- Final outcome of a run: resolution, rejection, or process termination
(the `process.exit(1)` inside writeTo's catch). -/
inductive Outcome
  | success (html : List Char)
  | failure (e : FatalError)
  | exited (code : Nat)
deriving DecidableEq, Repr

/-- Result of the try block's body, before the finally clause runs. -/
inductive BodyResult
  | ok (html : List Char)
  | thrown (e : FatalError)
  | exit (code : Nat)
deriving DecidableEq, Repr

/-- The `colors.warn` (yellow) wrapping. -/
def ansiYellow (s : String) : String := "\x1b[33m" ++ s ++ "\x1b[39m"

/-- The `colors.debug` (cyan) wrapping. -/
def ansiCyan (s : String) : String := "\x1b[36m" ++ s ++ "\x1b[39m"

/-- The HTTP-error message of lines 93-96: the colored warn part, a space,
the colored `url.origin + url.pathname`.  The query string is not an input. -/
def transportMsg (status : Nat) (origin pathname : String) : String :=
  ansiYellow ("📡 HTTP Error " ++ toString status ++ ":") ++ " "
    ++ ansiCyan (origin ++ pathname)

def hrefOf (u : URLRec) : String := u.origin ++ u.pathname ++ u.search

/-- The message of checkIfReSpec (lines 146-148). -/
def notRespecMsg (u : URLRec) : String :=
  ansiYellow "🕵️‍♀️  That doesn\x27t seem to be a ReSpec document. Please check manually:"
    ++ " " ++ ansiCyan (hrefOf u)

/-- One component of `version.join(".")` as displayed by generateHTML (NaN prints as NaN). -/
def versionNumStr : Option Int → String
  | some i => toString i
  | none => "NaN"

def versionJoin (v : List (Option Int)) : String :=
  String.intercalate "." (v.map versionNumStr)

/-- The wrapping error message of generateHTML (lines 128-137); `err` stands
for the propagated evaluation error text. -/
def genHTMLMsg (href : String) (v : List (Option Int)) (err : String) : String :=
  "\n😭  Sorry, there was an error generating the HTML. Please report this issue!\n"
    ++ ansiCyan ("Specification: " ++ href ++ "\nReSpec version: " ++ versionJoin v
      ++ "\nFile a bug: https://github.com/w3c/respec/\nError: " ++ err ++ "\n")

/-- JS `path.isAbsolute` (posix): the path starts with a slash. -/
def isAbsolutePath (p : String) : Bool :=
  match p.toList with
  | '/' :: _ => true
  | _ => false

/-- The target path computed by writeTo (lines 29-34): absolute paths are
used as-is, anything else is resolved against the working directory
(`path.resolve` modelled for already-normalised inputs). -/
def resolveOutPath (cwd outPath : String) : String :=
  if isAbsolutePath outPath then outPath else cwd ++ "/" ++ outPath

/-- The tail of the try block, `await page.close(); return html`, lines 111-112. -/
def finishBody (w : World) (html : List Char) (evs : List Ev) : BodyResult × List Ev :=
  if w.pageCloseOk then (BodyResult.ok html, evs ++ [Ev.pageClose])
  else (BodyResult.thrown (FatalError.pageCloseErr "page close failed"), evs)

/-- The generateHTML evaluation step (lines 123-127): version read from the
remote global, timer serialised at `elapsedAtEval`, then evaluateHTML. -/
def evalRun (w : World) (opts : Options) : Except String (List Char) × List String :=
  evaluateHTML (getVersion w.respecVersionStr)
    (timerRemaining opts.timeout w.elapsedAtEval) w.eval w.respecVersionStr

/-- The body of the try block (lines 75-112): new page, bridge install,
navigation and transport check, document-kind check, generateHTML (version
wait, version read, evaluateHTML), beforeWrite hook, and the output switch.
The writeTo catch (lines 37-40) logs and terminates the process. -/
def tryBody (w : World) (url : URLRec) (out : Option String) (opts : Options) :
    BodyResult × List Ev :=
  if !w.newPageOk then (BodyResult.thrown (FatalError.newPageErr "newPage failed"), [])
  else
    match w.navResult with
    | Except.error m =>
      (BodyResult.thrown (FatalError.navErr m), [Ev.navigate opts.timeout])
    | Except.ok resp =>
      if !resp.ok && resp.status != 0 then
        (BodyResult.thrown (FatalError.transportErr
          (transportMsg resp.status url.origin url.pathname)), [Ev.navigate opts.timeout])
      else if !w.isRespecDoc then
        (BodyResult.thrown (FatalError.notRespecErr (notRespecMsg url)),
          [Ev.navigate opts.timeout])
      else if !w.respecVersionAppears then
        (BodyResult.thrown (FatalError.waitVersionErr "respecVersion wait failed"),
          [Ev.navigate opts.timeout])
      else
        match evalRun w opts with
        | (Except.error e, warns) =>
          (BodyResult.thrown (FatalError.genHTMLErr
            (genHTMLMsg (hrefOf url) (getVersion w.respecVersionStr) e)),
            Ev.navigate opts.timeout :: warns.map Ev.consoleWarn)
        | (Except.ok html, warns) =>
          if !w.beforeWriteOk then
            (BodyResult.thrown (FatalError.beforeWriteErr "beforeWrite failed"),
              Ev.navigate opts.timeout :: (warns.map Ev.consoleWarn ++ [Ev.beforeWriteHook]))
          else
            match out with
            | none =>
              finishBody w html (Ev.navigate opts.timeout ::
                (warns.map Ev.consoleWarn ++ [Ev.beforeWriteHook, Ev.stdoutWrite html]))
            | some p =>
              if p = "" then
                finishBody w html (Ev.navigate opts.timeout ::
                  (warns.map Ev.consoleWarn ++ [Ev.beforeWriteHook]))
              else if w.writeOk then
                finishBody w html (Ev.navigate opts.timeout ::
                  (warns.map Ev.consoleWarn ++ [Ev.beforeWriteHook,
                    Ev.fsWrite (resolveOutPath w.cwd p) html]))
              else
                (BodyResult.exit 1, Ev.navigate opts.timeout ::
                  (warns.map Ev.consoleWarn ++ [Ev.beforeWriteHook,
                    Ev.consoleError "write failed", Ev.processExit 1]))

/-- fetchAndWrite (lines 56-116): directory and process acquisition happen
before the try block; `browser.close()` runs in the finally clause on every
exit from the body, and a rejection there replaces the body outcome;
`process.exit` terminates without reaching the finally clause. -/
def fetchAndWrite (w : World) (url : URLRec) (out : Option String) (opts : Options) :
    Outcome × List Ev :=
  if !w.mkdtempOk then (Outcome.failure (FatalError.mkdtempErr "mkdtemp failed"), [])
  else
    let userDataDir := w.tmpdir ++ "/respec2html-" ++ w.mkdtempSuffix
    let ev0 := [Ev.mkdtempDir userDataDir]
    if !w.launchOk then (Outcome.failure (FatalError.launchErr "launch failed"), ev0)
    else
      let ev1 := ev0 ++ [Ev.launch userDataDir opts.disableSandbox opts.debug]
      let body := tryBody w url out opts
      match body.1 with
      | BodyResult.exit code => (Outcome.exited code, ev1 ++ body.2)
      | BodyResult.ok html =>
        if w.closeOk then (Outcome.success html, ev1 ++ body.2 ++ [Ev.browserClose])
        else (Outcome.failure (FatalError.closeErr w.closeErrMsg),
          ev1 ++ body.2 ++ [Ev.browserClose])
      | BodyResult.thrown e =>
        if w.closeOk then (Outcome.failure e, ev1 ++ body.2 ++ [Ev.browserClose])
        else (Outcome.failure (FatalError.closeErr w.closeErrMsg),
          ev1 ++ body.2 ++ [Ev.browserClose])

/-! ### Trace observations -/

def isBrowserClose : Ev → Bool
  | Ev.browserClose => true
  | _ => false

/-- Number of session-release attempts in a trace. -/
def closeCount (t : List Ev) : Nat := (t.filter isBrowserClose).length

def stdoutWrites (t : List Ev) : List (List Char) :=
  t.filterMap fun e =>
    match e with
    | Ev.stdoutWrite d => some d
    | _ => none

def fsWrites (t : List Ev) : List (String × List Char) :=
  t.filterMap fun e =>
    match e with
    | Ev.fsWrite p d => some (p, d)
    | _ => none

def navBounds (t : List Ev) : List Nat :=
  t.filterMap fun e =>
    match e with
    | Ev.navigate b => some b
    | _ => none

def consoleErrors (t : List Ev) : List String :=
  t.filterMap fun e =>
    match e with
    | Ev.consoleError m => some m
    | _ => none

/-- Interpretation of a trace on a filesystem (a map from path to content):
every `fsWrite` overwrites the previous content of its path. -/
def applyFS (fs : String → Option (List Char)) : List Ev → String → Option (List Char)
  | [], q => fs q
  | Ev.fsWrite p d :: rest, q => applyFS (fun x => if x = p then some d else fs x) rest q
  | _ :: rest, q => applyFS fs rest q

/-! ### core/examples.js (run, lines 73-136) -/

/-- The observable attributes of one matched element
(`pre.example, pre.illegal-example, aside.example`). -/
structure ExampleElem where
  isAside : Bool
  illegal : Bool
  inAside : Bool
  title : String
  content : String

/-- The report published on the "example" topic. -/
structure Report where
  number : Nat
  illegal : Bool
  title : String
  content : Option String
deriving DecidableEq, Repr

/-- The forEach body (lines 89-134) at counter value `n`: returns the new
counter, the report published (none when nothing is published), and the
number handed to `makeTitle` for the visible marker (`makeTitle` renders it
only when positive).  The report captures `number` before `++number`. -/
def processExample (n : Nat) (e : ExampleElem) : Nat × Option Report × Nat :=
  if e.isAside then
    (n + 1, some ⟨n, e.illegal, e.title, none⟩, n + 1)
  else if e.inAside then
    (n, none, 0)
  else
    (n + 1, some ⟨n, e.illegal, e.title, some e.content⟩, n + 1)

def runExamplesAux (n : Nat) : List ExampleElem → List (Option Report × Nat)
  | [] => []
  | e :: es =>
    let r := processExample n e
    (r.2.1, r.2.2) :: runExamplesAux r.1 es

/-- run() (lines 73-136): process the matched elements in document order,
starting the counter at 0. -/
def runExamples (es : List ExampleElem) : List (Option Report × Nat) :=
  runExamplesAux 0 es

/-- An element increments the example counter when it is an aside, or a pre
not nested inside an aside. -/
def increments (e : ExampleElem) : Bool := e.isAside || !e.inAside

/-! ### Claim theorems -/

/-- C8: for every markup string, encoding it as a data URL with the fixed
prefix `data:<mime>;charset=utf-8,` followed by its percent-encoding, then
applying the modern-path extractor's decoding (strip the prefix,
percent-decode the remainder) yields the identical markup string. -/
theorem C8_dataURL_roundtrip (markup : List Char) :
    modernDecode (rsDocToDataURL markup) = some markup := by
  rw [modernDecode, rsDocToDataURL, stripDataURLHead_prefixed,
    decodeURIComp_encodeURIComp]

/-- C1: extraction routes to the legacy path iff the version triple is
lexicographically below (20, 10, 0); the legacy path emits exactly one
compatibility advisory to the console stream and the modern path none; the
"Developer Edition" sentinel maps to the triple 123456789.0.0 and routes to
the modern path. -/
theorem C1_version_gate (a b c : Nat) (remaining : Nat) (env : EvalEnv) (rv : String)
    (hready : env.readyFirst = true) (hok : env.readyOutcome = Except.ok ()) :
    (routesLegacy [some (a : Int), some (b : Int), some (c : Int)] = true ↔
      specVerLt (a, b, c) (20, 10, 0))
    ∧ (routesLegacy [some (a : Int), some (b : Int), some (c : Int)] = true →
        evaluateHTML [some (a : Int), some (b : Int), some (c : Int)] remaining env rv
          = (legacyExtract env, [advisoryMsg rv]))
    ∧ (routesLegacy [some (a : Int), some (b : Int), some (c : Int)] = false →
        evaluateHTML [some (a : Int), some (b : Int), some (c : Int)] remaining env rv
          = (modernExtract env, []))
    ∧ getVersion "Developer Edition" = [some 123456789, some 0, some 0]
    ∧ routesLegacy (getVersion "Developer Edition") = false := by
  refine ⟨?_, ?_, ?_, ?_, ?_⟩
  · simp only [routesLegacy, List.getD_cons_zero, List.getD_cons_succ, jsLtNum, jsEqNum,
      specVerLt, Bool.or_eq_true, Bool.and_eq_true, decide_eq_true_eq, beq_iff_eq]
    omega
  · intro h
    simp [evaluateHTML, timeoutRace, hready, hok, h]
  · intro h
    simp [evaluateHTML, timeoutRace, hready, hok, h]
  · rfl
  · rfl

/-- C1 witness at the concrete triple 19.9.9 (legacy side of the gate). -/
theorem C1_version_gate_witness :
    (routesLegacy [some (19 : Int), some (9 : Int), some (9 : Int)] = true ↔
      specVerLt (19, 9, 9) (20, 10, 0))
    ∧ (routesLegacy [some (19 : Int), some (9 : Int), some (9 : Int)] = true →
        evaluateHTML [some (19 : Int), some (9 : Int), some (9 : Int)] 5
          ⟨true, Except.ok (), Except.ok [], Except.ok []⟩ "19.9.9"
          = (legacyExtract ⟨true, Except.ok (), Except.ok [], Except.ok []⟩,
              [advisoryMsg "19.9.9"]))
    ∧ (routesLegacy [some (19 : Int), some (9 : Int), some (9 : Int)] = false →
        evaluateHTML [some (19 : Int), some (9 : Int), some (9 : Int)] 5
          ⟨true, Except.ok (), Except.ok [], Except.ok []⟩ "19.9.9"
          = (modernExtract ⟨true, Except.ok (), Except.ok [], Except.ok []⟩, []))
    ∧ getVersion "Developer Edition" = [some 123456789, some 0, some 0]
    ∧ routesLegacy (getVersion "Developer Edition") = false :=
  C1_version_gate 19 9 9 5 ⟨true, Except.ok (), Except.ok [], Except.ok []⟩ "19.9.9" rfl rfl

/-- C4: every diagnostic event raised in the remote context is delivered to
exactly one caller callback selected by its kind (error to onError, warning
to onWarning), with no loss, no duplication, and in emission order: the
delivery list has the same length as the event list, and the i-th delivery
is the kind-matching callback at the i-th event's detail. -/
theorem C4_bridge_delivery {α : Type} (es : List (DiagEvent α)) :
    (bridgeDeliveries es).length = es.length
    ∧ ∀ (i : Nat) (e : DiagEvent α), es[i]? = some e →
      (bridgeDeliveries es)[i]? = some (specExpectedDelivery e) := by
  constructor
  · simp [bridgeDeliveries, remoteForward]
  · intro i e he
    simp only [bridgeDeliveries, remoteForward, List.map_map, List.getElem?_map, he,
      Option.map_some']
    congr 1
    cases hk : e.kind <;>
      simp [onRespecErrorOrWarning, specExpectedDelivery, eventName, hk, Function.comp]

/-- C4 witness: a two-event run, one of each kind. -/
theorem C4_bridge_delivery_witness :
    (bridgeDeliveries [(⟨DiagKind.error, 7⟩ : DiagEvent Nat), ⟨DiagKind.warning, 8⟩]).length = 2
    ∧ (bridgeDeliveries [(⟨DiagKind.error, 7⟩ : DiagEvent Nat), ⟨DiagKind.warning, 8⟩])[0]?
        = some (Delivery.onError 7)
    ∧ (bridgeDeliveries [(⟨DiagKind.error, 7⟩ : DiagEvent Nat), ⟨DiagKind.warning, 8⟩])[1]?
        = some (Delivery.onWarning 8) := by
  obtain ⟨h1, h2⟩ :=
    C4_bridge_delivery [(⟨DiagKind.error, 7⟩ : DiagEvent Nat), ⟨DiagKind.warning, 8⟩]
  exact ⟨h1, h2 0 ⟨DiagKind.error, 7⟩ rfl, h2 1 ⟨DiagKind.warning, 8⟩ rfl⟩

/-- C5 (amended): when the readiness timer fires first, the wait fails with
a message carrying the remaining budget at the moment the wait was
serialised (`max(0, configured - elapsed)`), not the configured duration. -/
theorem C5_timeout_carries_remaining (cfg elapsed : Nat) (v : List (Option Int))
    (env : EvalEnv) (rv : String) (hnr : env.readyFirst = false) :
    (evaluateHTML v (timerRemaining cfg elapsed) env rv).1
      = Except.error (readinessTimeoutMsg (cfg - elapsed))
    ∧ strContains (readinessTimeoutMsg (cfg - elapsed)) (toString (cfg - elapsed)) = true := by
  constructor
  · simp [evaluateHTML, timeoutRace, hnr, timerRemaining]
  · exact strContains_of_eq_append _
      "Timeout: document.respecIsReady didn\x27t resolve in "
      (toString (cfg - elapsed)) "ms." rfl

/-- C5 witness: configured duration 300000 ms, 1000 ms already spent. -/
theorem C5_timeout_carries_remaining_witness :
    (evaluateHTML [some 20, some 10, some 0] (timerRemaining 300000 1000)
        ⟨false, Except.ok (), Except.ok [], Except.ok []⟩ "20.10.0").1
      = Except.error (readinessTimeoutMsg (300000 - 1000))
    ∧ strContains (readinessTimeoutMsg (300000 - 1000)) (toString (300000 - 1000)) = true :=
  C5_timeout_carries_remaining 300000 1000 [some 20, some 10, some 0]
    ⟨false, Except.ok (), Except.ok [], Except.ok []⟩ "20.10.0" rfl

/-- C5 counterexample: with 1000 ms already spent of a configured 300000 ms,
the wait's error message does not carry the configured duration 300000. -/
theorem C5_claim_counterexample :
    (evaluateHTML [some 20, some 10, some 0] (timerRemaining 300000 1000)
        ⟨false, Except.ok (), Except.ok [], Except.ok []⟩ "20.10.0").1
      = Except.error (readinessTimeoutMsg 299000)
    ∧ strContains (readinessTimeoutMsg 299000) "300000" = false := by
  constructor
  · rfl
  · decide

/-- An incrementing element publishes the pre-increment counter and renders
the post-increment counter. -/
theorem processExample_increments (n : Nat) (x : ExampleElem)
    (h : increments x = true) :
    ∃ rep, (processExample n x).2.1 = some rep ∧ (processExample n x).2.2 = n + 1
      ∧ rep.number = n := by
  rcases x with ⟨xa, xil, xin, xt, xc⟩
  rw [increments] at h
  cases xa
  · cases xin
    · exact ⟨⟨n, xil, xt, some xc⟩, rfl, rfl, rfl⟩
    · simp at h
  · exact ⟨⟨n, xil, xt, none⟩, rfl, rfl, rfl⟩

/-- C10 worker: at any starting counter, an element that increments the
counter publishes a report whose number is one less than its marker
number. -/
theorem runExamplesAux_number (es : List ExampleElem) : ∀ (n i : Nat) (e : ExampleElem)
    (pr : Option Report × Nat), es[i]? = some e →
    (runExamplesAux n es)[i]? = some pr → increments e = true →
    ∃ rep, pr.1 = some rep ∧ 1 ≤ pr.2 ∧ rep.number = pr.2 - 1 := by
  induction es with
  | nil => intro n i e pr he _ _; simp at he
  | cons x xs ih =>
    intro n i e pr he hpr hinc
    cases i with
    | zero =>
      simp only [List.getElem?_cons_zero, Option.some_inj] at he hpr
      rw [runExamplesAux] at hpr
      simp only [List.getElem?_cons_zero, Option.some_inj] at hpr
      rw [← he] at hinc
      obtain ⟨rep, h1, h2, h3⟩ := processExample_increments n x hinc
      refine ⟨rep, ?_, ?_, ?_⟩
      · rw [← hpr]
        exact h1
      · rw [← hpr]
        show 1 ≤ (processExample n x).2.2
        omega
      · rw [← hpr]
        show rep.number = (processExample n x).2.2 - 1
        omega
    | succ j =>
      rw [runExamplesAux] at hpr
      simp only [List.getElem?_cons_succ] at he hpr
      exact ih _ j e pr he hpr hinc

/-- C10: for every element processed by run() that increments the example
counter, the report published on the "example" topic carries a number equal
to the rendered marker number minus one (the counter value before its
increment). -/
theorem C10_report_number (es : List ExampleElem) (i : Nat) (e : ExampleElem)
    (pr : Option Report × Nat) (he : es[i]? = some e)
    (hpr : (runExamples es)[i]? = some pr) (hinc : increments e = true) :
    ∃ rep, pr.1 = some rep ∧ 1 ≤ pr.2 ∧ rep.number = pr.2 - 1 :=
  runExamplesAux_number es 0 i e pr he hpr hinc

/-! ### Trace lemmas for the pipeline claims -/

theorem filter_close_warns (ws : List String) :
    (ws.map Ev.consoleWarn).filter isBrowserClose = [] := by
  rw [List.filter_eq_nil_iff]
  intro a ha
  rcases List.mem_map.mp ha with ⟨s, _, rfl⟩
  simp [isBrowserClose]

theorem closeCount_append (a b : List Ev) :
    closeCount (a ++ b) = closeCount a + closeCount b := by
  simp [closeCount, List.filter_append]

theorem closeCount_nil : closeCount [] = 0 := rfl

theorem closeCount_cons (e : Ev) (t : List Ev) :
    closeCount (e :: t) = (if isBrowserClose e then 1 else 0) + closeCount t := by
  rw [closeCount, List.filter_cons]
  split
  · simp [closeCount]
    omega
  · simp [closeCount]

/-- The try-block body never attempts a browser close. -/
theorem tryBody_closeCount (w : World) (url : URLRec) (out : Option String)
    (opts : Options) : closeCount (tryBody w url out opts).2 = 0 := by
  rw [tryBody]
  simp only [finishBody]
  repeat' split
  all_goals simp [closeCount, List.filter_append, List.filter_cons, isBrowserClose,
    filter_close_warns]

/-- C2: in every run in which the session is successfully acquired (the
profile directory is created and the browser launches) and that does not end
in `process.exit`, the trace contains exactly one session release, whatever
the exit path (resolution or any thrown fatal error). -/
theorem C2_release_exactly_once (w : World) (url : URLRec) (out : Option String)
    (opts : Options) (h1 : w.mkdtempOk = true) (h2 : w.launchOk = true)
    (h3 : ∀ code, (fetchAndWrite w url out opts).1 ≠ Outcome.exited code) :
    closeCount (fetchAndWrite w url out opts).2 = 1 := by
  rw [fetchAndWrite] at h3 ⊢
  rw [h1, h2] at h3 ⊢
  simp only [Bool.not_true, Bool.false_eq_true, if_false] at h3 ⊢
  rcases hb : (tryBody w url out opts).1 with html | e | code
  · repeat' split
    all_goals first
      | contradiction
      | simp [closeCount_append, closeCount_cons, closeCount_nil, tryBody_closeCount,
          isBrowserClose]
  · repeat' split
    all_goals first
      | contradiction
      | simp [closeCount_append, closeCount_cons, closeCount_nil, tryBody_closeCount,
          isBrowserClose]
  · exact absurd (by rw [hb]) (h3 code)

/-- The acquisition events (temp profile directory, browser launch). -/
def acqEvs (w : World) (opts : Options) : List Ev :=
  [Ev.mkdtempDir (w.tmpdir ++ "/respec2html-" ++ w.mkdtempSuffix),
   Ev.launch (w.tmpdir ++ "/respec2html-" ++ w.mkdtempSuffix) opts.disableSandbox opts.debug]

/-- Normal form of fetchAndWrite when the body resolved. -/
theorem fetchAndWrite_eq_ok (w : World) (url : URLRec) (out : Option String)
    (opts : Options) (h1 : w.mkdtempOk = true) (h2 : w.launchOk = true)
    (html : List Char) (evs : List Ev)
    (hb : tryBody w url out opts = (BodyResult.ok html, evs)) :
    fetchAndWrite w url out opts
      = (if w.closeOk then Outcome.success html
         else Outcome.failure (FatalError.closeErr w.closeErrMsg),
         acqEvs w opts ++ evs ++ [Ev.browserClose]) := by
  have hb1 : (tryBody w url out opts).1 = BodyResult.ok html := by rw [hb]
  have hb2 : (tryBody w url out opts).2 = evs := by rw [hb]
  rw [fetchAndWrite, h1, h2]
  simp only [Bool.not_true, Bool.false_eq_true, if_false]
  rw [hb1, hb2]
  repeat' split
  all_goals first
    | contradiction
    | simp_all [acqEvs]

/-- Normal form of fetchAndWrite when the body threw. -/
theorem fetchAndWrite_eq_thrown (w : World) (url : URLRec) (out : Option String)
    (opts : Options) (h1 : w.mkdtempOk = true) (h2 : w.launchOk = true)
    (e : FatalError) (evs : List Ev)
    (hb : tryBody w url out opts = (BodyResult.thrown e, evs)) :
    fetchAndWrite w url out opts
      = (if w.closeOk then Outcome.failure e
         else Outcome.failure (FatalError.closeErr w.closeErrMsg),
         acqEvs w opts ++ evs ++ [Ev.browserClose]) := by
  have hb1 : (tryBody w url out opts).1 = BodyResult.thrown e := by rw [hb]
  have hb2 : (tryBody w url out opts).2 = evs := by rw [hb]
  rw [fetchAndWrite, h1, h2]
  simp only [Bool.not_true, Bool.false_eq_true, if_false]
  rw [hb1, hb2]
  repeat' split
  all_goals first
    | contradiction
    | simp_all [acqEvs]

/-- Normal form of fetchAndWrite when the body exited the process. -/
theorem fetchAndWrite_eq_exit (w : World) (url : URLRec) (out : Option String)
    (opts : Options) (h1 : w.mkdtempOk = true) (h2 : w.launchOk = true)
    (code : Nat) (evs : List Ev)
    (hb : tryBody w url out opts = (BodyResult.exit code, evs)) :
    fetchAndWrite w url out opts = (Outcome.exited code, acqEvs w opts ++ evs) := by
  have hb1 : (tryBody w url out opts).1 = BodyResult.exit code := by rw [hb]
  have hb2 : (tryBody w url out opts).2 = evs := by rw [hb]
  rw [fetchAndWrite, h1, h2]
  simp only [Bool.not_true, Bool.false_eq_true, if_false]
  rw [hb1, hb2]
  repeat' split
  all_goals first
    | contradiction
    | simp_all [acqEvs]

/-- C2 witness: a fully successful run with destination "" releases once. -/
theorem C2_release_exactly_once_witness :
    closeCount (fetchAndWrite
      ⟨"/tmp", "abc123", true, true, true, Except.ok ⟨true, 200⟩, true, true, "19.9.9",
        40, 60, ⟨true, Except.ok (), Except.ok "<html>x</html>".toList, Except.ok []⟩,
        true, true, true, true, "close failed", "/work"⟩
      ⟨"https://example.org", "/spec.html", ""⟩ (some "") ⟨300000, false, false⟩).2 = 1 := by
  apply C2_release_exactly_once _ _ _ _ rfl rfl
  intro code h
  rw [show (fetchAndWrite
      ⟨"/tmp", "abc123", true, true, true, Except.ok ⟨true, 200⟩, true, true, "19.9.9",
        40, 60, ⟨true, Except.ok (), Except.ok "<html>x</html>".toList, Except.ok []⟩,
        true, true, true, true, "close failed", "/work"⟩
      ⟨"https://example.org", "/spec.html", ""⟩ (some "") ⟨300000, false, false⟩).1
      = Outcome.success "<html>x</html>".toList from rfl] at h
  cases h

/-- A selector that ignores console warnings selects nothing from a block of
console warnings. -/
theorem filterMap_consoleWarn_none {β : Type} (sel : Ev → Option β)
    (h : ∀ s, sel (Ev.consoleWarn s) = none) (ws : List String) :
    (ws.map Ev.consoleWarn).filterMap sel = [] := by
  induction ws with
  | nil => rfl
  | cons a t ih => simp [List.filterMap_cons, h, ih]

theorem stdoutWrites_warns (ws : List String) :
    stdoutWrites (ws.map Ev.consoleWarn) = [] := by
  rw [stdoutWrites]
  exact filterMap_consoleWarn_none _ (fun s => rfl) ws

theorem fsWrites_warns (ws : List String) :
    fsWrites (ws.map Ev.consoleWarn) = [] := by
  rw [fsWrites]
  exact filterMap_consoleWarn_none _ (fun s => rfl) ws

theorem navBounds_warns (ws : List String) :
    navBounds (ws.map Ev.consoleWarn) = [] := by
  rw [navBounds]
  exact filterMap_consoleWarn_none _ (fun s => rfl) ws

theorem consoleErrors_append (a b : List Ev) :
    consoleErrors (a ++ b) = consoleErrors a ++ consoleErrors b := by
  simp [consoleErrors, List.filterMap_append]

theorem stdoutWrites_append (a b : List Ev) :
    stdoutWrites (a ++ b) = stdoutWrites a ++ stdoutWrites b := by
  simp [stdoutWrites, List.filterMap_append]

theorem fsWrites_append (a b : List Ev) :
    fsWrites (a ++ b) = fsWrites a ++ fsWrites b := by
  simp [fsWrites, List.filterMap_append]

theorem navBounds_append (a b : List Ev) :
    navBounds (a ++ b) = navBounds a ++ navBounds b := by
  simp [navBounds, List.filterMap_append]

/-- Console warnings contribute no filesystem effect. -/
theorem applyFS_warns (ws : List String) (fs : String → Option (List Char))
    (rest : List Ev) (q : String) :
    applyFS fs (ws.map Ev.consoleWarn ++ rest) q = applyFS fs rest q := by
  induction ws generalizing fs with
  | nil => rfl
  | cons a t ih => simp [applyFS, ih]

/-- C3: a non-success, non-zero transport status fails the run with a
transport error whose message contains the target's origin and path; the
message is built from status, origin, and pathname only — at the spec's
concrete instance (status 404, origin `https://example.org`, path
`/spec.html`, query `?key=SECRET`) it does not contain `SECRET`. -/
theorem C3_transport_error (w : World) (url : URLRec) (out : Option String)
    (opts : Options) (resp : Response)
    (h1 : w.mkdtempOk = true) (h2 : w.launchOk = true) (h3 : w.newPageOk = true)
    (h4 : w.navResult = Except.ok resp) (h5 : resp.ok = false) (h6 : resp.status ≠ 0)
    (h7 : w.closeOk = true) :
    (fetchAndWrite w url out opts).1
      = Outcome.failure (FatalError.transportErr
          (transportMsg resp.status url.origin url.pathname))
    ∧ strContains (transportMsg resp.status url.origin url.pathname)
        (url.origin ++ url.pathname) = true
    ∧ strContains (transportMsg 404 "https://example.org" "/spec.html") "SECRET" = false := by
  have hcond : (!resp.ok && resp.status != 0) = true := by
    rw [h5]
    simp [bne_iff_ne, h6]
  have hbody : tryBody w url out opts
      = (BodyResult.thrown (FatalError.transportErr
          (transportMsg resp.status url.origin url.pathname)),
         [Ev.navigate opts.timeout]) := by
    simp only [tryBody, h3, h4, Bool.not_true, Bool.false_eq_true, if_false]
    rw [if_pos hcond]
  refine ⟨?_, ?_, ?_⟩
  · rw [fetchAndWrite_eq_thrown w url out opts h1 h2 _ _ hbody]
    simp [h7]
  · apply strContains_of_eq_append _
      (ansiYellow ("📡 HTTP Error " ++ toString resp.status ++ ":") ++ " " ++ "\x1b[36m")
      (url.origin ++ url.pathname) "\x1b[39m"
    rw [transportMsg, ansiCyan]
    simp only [String.append_assoc]
  · decide

/-- C3 witness at the spec's concrete instance. -/
theorem C3_transport_error_witness :
    (fetchAndWrite
      ⟨"/tmp", "abc123", true, true, true, Except.ok ⟨false, 404⟩, true, true, "19.9.9",
        40, 60, ⟨true, Except.ok (), Except.ok [], Except.ok []⟩,
        true, true, true, true, "close failed", "/work"⟩
      ⟨"https://example.org", "/spec.html", "?key=SECRET"⟩ (some "")
      ⟨300000, false, false⟩).1
      = Outcome.failure (FatalError.transportErr
          (transportMsg 404 "https://example.org" "/spec.html"))
    ∧ strContains (transportMsg 404 "https://example.org" "/spec.html")
        ("https://example.org" ++ "/spec.html") = true
    ∧ strContains (transportMsg 404 "https://example.org" "/spec.html") "SECRET" = false :=
  C3_transport_error
    ⟨"/tmp", "abc123", true, true, true, Except.ok ⟨false, 404⟩, true, true, "19.9.9",
      40, 60, ⟨true, Except.ok (), Except.ok [], Except.ok []⟩,
      true, true, true, true, "close failed", "/work"⟩
    ⟨"https://example.org", "/spec.html", "?key=SECRET"⟩ (some "")
    ⟨300000, false, false⟩ ⟨false, 404⟩ rfl rfl rfl rfl rfl (by decide) rfl

/-- The try-block body navigates exactly once, bounded by the configured
timeout, whenever a page was obtained. -/
theorem tryBody_navBounds (w : World) (url : URLRec) (out : Option String)
    (opts : Options) (h : w.newPageOk = true) :
    navBounds (tryBody w url out opts).2 = [opts.timeout] := by
  rw [tryBody, h]
  simp only [Bool.not_true, Bool.false_eq_true, if_false, finishBody]
  repeat' split
  all_goals first
    | contradiction
    | simp [navBounds, List.filterMap_append, List.filterMap_cons, navBounds_warns,
        navBounds_append]

/-- C6 (amended): navigation is bounded by the full configured timeout
duration, not by the deadline's remaining budget: the single navigation
event carries `opts.timeout` whatever time has already elapsed. -/
theorem navBounds_acq (w : World) (opts : Options) : navBounds (acqEvs w opts) = [] := rfl

theorem navBounds_close : navBounds [Ev.browserClose] = [] := rfl

theorem C6_nav_bound_is_configured_timeout (w : World) (url : URLRec)
    (out : Option String) (opts : Options) (h1 : w.mkdtempOk = true)
    (h2 : w.launchOk = true) (h3 : w.newPageOk = true) :
    navBounds (fetchAndWrite w url out opts).2 = [opts.timeout] := by
  rcases hb : tryBody w url out opts with ⟨br, evs⟩
  have hnav : navBounds evs = [opts.timeout] := by
    have h := tryBody_navBounds w url out opts h3
    rw [hb] at h
    exact h
  cases br with
  | ok html =>
    rw [fetchAndWrite_eq_ok w url out opts h1 h2 html evs hb]
    simp [navBounds_append, navBounds_acq, navBounds_close, hnav]
  | thrown e =>
    rw [fetchAndWrite_eq_thrown w url out opts h1 h2 e evs hb]
    simp [navBounds_append, navBounds_acq, navBounds_close, hnav]
  | exit code =>
    rw [fetchAndWrite_eq_exit w url out opts h1 h2 code evs hb]
    simp [navBounds_append, navBounds_acq, navBounds_close, hnav]

/-- C6 witness for the amended claim. -/
theorem C6_nav_bound_witness :
    navBounds (fetchAndWrite
      ⟨"/tmp", "abc123", true, true, true, Except.ok ⟨true, 200⟩, true, true, "19.9.9",
        5000, 6000, ⟨true, Except.ok (), Except.ok "<p>x</p>".toList, Except.ok []⟩,
        true, true, true, true, "close failed", "/work"⟩
      ⟨"https://example.org", "/spec.html", ""⟩ (some "") ⟨300000, false, false⟩).2
      = [300000] :=
  C6_nav_bound_is_configured_timeout
    ⟨"/tmp", "abc123", true, true, true, Except.ok ⟨true, 200⟩, true, true, "19.9.9",
      5000, 6000, ⟨true, Except.ok (), Except.ok "<p>x</p>".toList, Except.ok []⟩,
      true, true, true, true, "close failed", "/work"⟩
    ⟨"https://example.org", "/spec.html", ""⟩ (some "") ⟨300000, false, false⟩ rfl rfl rfl

/-- C6 counterexample: with 5000 ms already spent when navigation begins,
the navigation bound is the full 300000 ms, not the remaining 295000 ms the
claim requires. -/
theorem C6_claim_counterexample :
    navBounds (fetchAndWrite
      ⟨"/tmp", "abc123", true, true, true, Except.ok ⟨true, 200⟩, true, true, "19.9.9",
        5000, 6000, ⟨true, Except.ok (), Except.ok "<p>x</p>".toList, Except.ok []⟩,
        true, true, true, true, "close failed", "/work"⟩
      ⟨"https://example.org", "/spec.html", ""⟩ (some "") ⟨300000, false, false⟩).2
      ≠ [timerRemaining 300000 5000] := by
  decide

/-- C7 (amended): whenever the cleanup path is reached and session release
fails, the release failure is not logged and it replaces the pipeline's
primary outcome (success and earlier fatal errors alike). -/
theorem C7_close_failure_masks (w : World) (url : URLRec) (out : Option String)
    (opts : Options) (h1 : w.mkdtempOk = true) (h2 : w.launchOk = true)
    (hc : w.closeOk = false)
    (hnx : ∀ code, (tryBody w url out opts).1 ≠ BodyResult.exit code) :
    (fetchAndWrite w url out opts).1 = Outcome.failure (FatalError.closeErr w.closeErrMsg)
    ∧ consoleErrors (fetchAndWrite w url out opts).2
        = consoleErrors (tryBody w url out opts).2 := by
  rcases hb : tryBody w url out opts with ⟨br, evs⟩
  cases br with
  | ok html =>
    rw [fetchAndWrite_eq_ok w url out opts h1 h2 html evs hb]
    constructor
    · simp [hc]
    · simp [consoleErrors_append, consoleErrors, List.filterMap_cons, acqEvs]
  | thrown e =>
    rw [fetchAndWrite_eq_thrown w url out opts h1 h2 e evs hb]
    constructor
    · simp [hc]
    · simp [consoleErrors_append, consoleErrors, List.filterMap_cons, acqEvs]
  | exit code =>
    exfalso
    apply hnx code
    rw [hb]

/-- C7 witness for the amended claim (successful body, failing release). -/
theorem C7_close_failure_masks_witness :
    (fetchAndWrite
      ⟨"/tmp", "abc123", true, true, true, Except.ok ⟨true, 200⟩, true, true, "19.9.9",
        40, 60, ⟨true, Except.ok (), Except.ok "<p>x</p>".toList, Except.ok []⟩,
        true, true, true, false, "browser close rejected", "/work"⟩
      ⟨"https://example.org", "/spec.html", ""⟩ (some "") ⟨300000, false, false⟩).1
      = Outcome.failure (FatalError.closeErr "browser close rejected")
    ∧ consoleErrors (fetchAndWrite
      ⟨"/tmp", "abc123", true, true, true, Except.ok ⟨true, 200⟩, true, true, "19.9.9",
        40, 60, ⟨true, Except.ok (), Except.ok "<p>x</p>".toList, Except.ok []⟩,
        true, true, true, false, "browser close rejected", "/work"⟩
      ⟨"https://example.org", "/spec.html", ""⟩ (some "") ⟨300000, false, false⟩).2
      = consoleErrors (tryBody
      ⟨"/tmp", "abc123", true, true, true, Except.ok ⟨true, 200⟩, true, true, "19.9.9",
        40, 60, ⟨true, Except.ok (), Except.ok "<p>x</p>".toList, Except.ok []⟩,
        true, true, true, false, "browser close rejected", "/work"⟩
      ⟨"https://example.org", "/spec.html", ""⟩ (some "") ⟨300000, false, false⟩).2 := by
  apply C7_close_failure_masks _ _ _ _ rfl rfl rfl
  intro code h
  rw [show (tryBody
      ⟨"/tmp", "abc123", true, true, true, Except.ok ⟨true, 200⟩, true, true, "19.9.9",
        40, 60, ⟨true, Except.ok (), Except.ok "<p>x</p>".toList, Except.ok []⟩,
        true, true, true, false, "browser close rejected", "/work"⟩
      ⟨"https://example.org", "/spec.html", ""⟩ (some "") ⟨300000, false, false⟩).1
      = BodyResult.ok "<p>x</p>".toList from rfl] at h
  cases h

/-- C7 counterexample: the run whose body succeeded with markup ends in the
close error instead, and nothing was logged (no console.error event). -/
theorem C7_claim_counterexample :
    (tryBody
      ⟨"/tmp", "abc123", true, true, true, Except.ok ⟨true, 200⟩, true, true, "19.9.9",
        40, 60, ⟨true, Except.ok (), Except.ok "<p>x</p>".toList, Except.ok []⟩,
        true, true, true, false, "boom", "/work"⟩
      ⟨"https://example.org", "/spec.html", ""⟩ (some "") ⟨300000, false, false⟩).1
      = BodyResult.ok "<p>x</p>".toList
    ∧ (fetchAndWrite
      ⟨"/tmp", "abc123", true, true, true, Except.ok ⟨true, 200⟩, true, true, "19.9.9",
        40, 60, ⟨true, Except.ok (), Except.ok "<p>x</p>".toList, Except.ok []⟩,
        true, true, true, false, "boom", "/work"⟩
      ⟨"https://example.org", "/spec.html", ""⟩ (some "") ⟨300000, false, false⟩).1
      = Outcome.failure (FatalError.closeErr "boom")
    ∧ consoleErrors (fetchAndWrite
      ⟨"/tmp", "abc123", true, true, true, Except.ok ⟨true, 200⟩, true, true, "19.9.9",
        40, 60, ⟨true, Except.ok (), Except.ok "<p>x</p>".toList, Except.ok []⟩,
        true, true, true, false, "boom", "/work"⟩
      ⟨"https://example.org", "/spec.html", ""⟩ (some "") ⟨300000, false, false⟩).2 = [] :=
  ⟨rfl, rfl, rfl⟩

/-- C9: on a successful run the output sink is determined exactly by the
destination: null emits the markup to standard output and writes no file;
the empty string emits nothing and writes no file; any other string is a
filesystem path (resolved against the working directory when relative)
whose content after the run is exactly the markup, overwriting whatever the
filesystem held; in every case fetchAndWrite resolves with the markup. -/
theorem C9_output_sink (w : World) (url : URLRec) (out : Option String)
    (opts : Options) (resp : Response) (html : List Char)
    (h1 : w.mkdtempOk = true) (h2 : w.launchOk = true) (h3 : w.newPageOk = true)
    (h4 : w.navResult = Except.ok resp) (h5 : (!resp.ok && resp.status != 0) = false)
    (h6 : w.isRespecDoc = true) (h7 : w.respecVersionAppears = true)
    (h8 : (evalRun w opts).1 = Except.ok html)
    (h9 : w.beforeWriteOk = true) (h10 : w.writeOk = true)
    (h11 : w.pageCloseOk = true) (h12 : w.closeOk = true) :
    (fetchAndWrite w url out opts).1 = Outcome.success html
    ∧ (out = none →
        stdoutWrites (fetchAndWrite w url out opts).2 = [html]
        ∧ fsWrites (fetchAndWrite w url out opts).2 = [])
    ∧ (out = some "" →
        stdoutWrites (fetchAndWrite w url out opts).2 = []
        ∧ fsWrites (fetchAndWrite w url out opts).2 = [])
    ∧ (∀ p, out = some p → p ≠ "" →
        stdoutWrites (fetchAndWrite w url out opts).2 = []
        ∧ fsWrites (fetchAndWrite w url out opts).2 = [(resolveOutPath w.cwd p, html)]
        ∧ ∀ fs0, applyFS fs0 (fetchAndWrite w url out opts).2 (resolveOutPath w.cwd p)
            = some html) := by
  rcases hev : evalRun w opts with ⟨r1, warns⟩
  rw [hev] at h8
  have hr1 : r1 = Except.ok html := h8
  subst hr1
  have hbN : tryBody w url none opts
      = (BodyResult.ok html, Ev.navigate opts.timeout ::
          (warns.map Ev.consoleWarn
            ++ [Ev.beforeWriteHook, Ev.stdoutWrite html, Ev.pageClose])) := by
    simp [tryBody, h3, h4, h5, h6, h7, h9, hev, finishBody, h11]
  have hbE : tryBody w url (some "") opts
      = (BodyResult.ok html, Ev.navigate opts.timeout ::
          (warns.map Ev.consoleWarn ++ [Ev.beforeWriteHook, Ev.pageClose])) := by
    simp [tryBody, h3, h4, h5, h6, h7, h9, hev, finishBody, h11]
  have hbP : ∀ p, p ≠ "" → tryBody w url (some p) opts
      = (BodyResult.ok html, Ev.navigate opts.timeout ::
          (warns.map Ev.consoleWarn ++ [Ev.beforeWriteHook,
            Ev.fsWrite (resolveOutPath w.cwd p) html, Ev.pageClose])) := by
    intro p hp
    simp [tryBody, h3, h4, h5, h6, h7, h9, hev, finishBody, h10, h11, hp]
  refine ⟨?_, ?_, ?_, ?_⟩
  · rcases out with _ | p
    · rw [fetchAndWrite_eq_ok w url none opts h1 h2 html _ hbN]
      simp [h12]
    · by_cases hp : p = ""
      · subst hp
        rw [fetchAndWrite_eq_ok w url (some "") opts h1 h2 html _ hbE]
        simp [h12]
      · rw [fetchAndWrite_eq_ok w url (some p) opts h1 h2 html _ (hbP p hp)]
        simp [h12]
  · intro ho
    subst ho
    rw [fetchAndWrite_eq_ok w url none opts h1 h2 html _ hbN]
    constructor
    · simp [stdoutWrites, List.filterMap_append, List.filterMap_cons, List.filterMap_map,
        Function.comp, acqEvs]
    · simp [fsWrites, List.filterMap_append, List.filterMap_cons, List.filterMap_map,
        Function.comp, acqEvs]
  · intro ho
    subst ho
    rw [fetchAndWrite_eq_ok w url (some "") opts h1 h2 html _ hbE]
    constructor
    · simp [stdoutWrites, List.filterMap_append, List.filterMap_cons, List.filterMap_map,
        Function.comp, acqEvs]
    · simp [fsWrites, List.filterMap_append, List.filterMap_cons, List.filterMap_map,
        Function.comp, acqEvs]
  · intro p ho hp
    subst ho
    rw [fetchAndWrite_eq_ok w url (some p) opts h1 h2 html _ (hbP p hp)]
    refine ⟨?_, ?_, ?_⟩
    · simp [stdoutWrites, List.filterMap_append, List.filterMap_cons, List.filterMap_map,
        Function.comp, acqEvs]
    · simp [fsWrites, List.filterMap_append, List.filterMap_cons, List.filterMap_map,
        Function.comp, acqEvs]
    · intro fs0
      simp [acqEvs, List.cons_append, List.append_assoc, applyFS, applyFS_warns]

/-- C9 witness: a successful legacy-path run writing to `/out/spec.html`. -/
theorem C9_output_sink_witness :
    (fetchAndWrite
      ⟨"/tmp", "abc123", true, true, true, Except.ok ⟨true, 200⟩, true, true, "19.9.9",
        40, 60, ⟨true, Except.ok (), Except.ok "<p>x</p>".toList, Except.ok []⟩,
        true, true, true, true, "close failed", "/work"⟩
      ⟨"https://example.org", "/spec.html", ""⟩ (some "/out/spec.html")
      ⟨300000, false, false⟩).1 = Outcome.success "<p>x</p>".toList
    ∧ (some "/out/spec.html" = none →
        stdoutWrites (fetchAndWrite
          ⟨"/tmp", "abc123", true, true, true, Except.ok ⟨true, 200⟩, true, true, "19.9.9",
            40, 60, ⟨true, Except.ok (), Except.ok "<p>x</p>".toList, Except.ok []⟩,
            true, true, true, true, "close failed", "/work"⟩
          ⟨"https://example.org", "/spec.html", ""⟩ (some "/out/spec.html")
          ⟨300000, false, false⟩).2 = ["<p>x</p>".toList]
        ∧ fsWrites (fetchAndWrite
          ⟨"/tmp", "abc123", true, true, true, Except.ok ⟨true, 200⟩, true, true, "19.9.9",
            40, 60, ⟨true, Except.ok (), Except.ok "<p>x</p>".toList, Except.ok []⟩,
            true, true, true, true, "close failed", "/work"⟩
          ⟨"https://example.org", "/spec.html", ""⟩ (some "/out/spec.html")
          ⟨300000, false, false⟩).2 = [])
    ∧ (some "/out/spec.html" = some "" →
        stdoutWrites (fetchAndWrite
          ⟨"/tmp", "abc123", true, true, true, Except.ok ⟨true, 200⟩, true, true, "19.9.9",
            40, 60, ⟨true, Except.ok (), Except.ok "<p>x</p>".toList, Except.ok []⟩,
            true, true, true, true, "close failed", "/work"⟩
          ⟨"https://example.org", "/spec.html", ""⟩ (some "/out/spec.html")
          ⟨300000, false, false⟩).2 = []
        ∧ fsWrites (fetchAndWrite
          ⟨"/tmp", "abc123", true, true, true, Except.ok ⟨true, 200⟩, true, true, "19.9.9",
            40, 60, ⟨true, Except.ok (), Except.ok "<p>x</p>".toList, Except.ok []⟩,
            true, true, true, true, "close failed", "/work"⟩
          ⟨"https://example.org", "/spec.html", ""⟩ (some "/out/spec.html")
          ⟨300000, false, false⟩).2 = [])
    ∧ (∀ p, some "/out/spec.html" = some p → p ≠ "" →
        stdoutWrites (fetchAndWrite
          ⟨"/tmp", "abc123", true, true, true, Except.ok ⟨true, 200⟩, true, true, "19.9.9",
            40, 60, ⟨true, Except.ok (), Except.ok "<p>x</p>".toList, Except.ok []⟩,
            true, true, true, true, "close failed", "/work"⟩
          ⟨"https://example.org", "/spec.html", ""⟩ (some "/out/spec.html")
          ⟨300000, false, false⟩).2 = []
        ∧ fsWrites (fetchAndWrite
          ⟨"/tmp", "abc123", true, true, true, Except.ok ⟨true, 200⟩, true, true, "19.9.9",
            40, 60, ⟨true, Except.ok (), Except.ok "<p>x</p>".toList, Except.ok []⟩,
            true, true, true, true, "close failed", "/work"⟩
          ⟨"https://example.org", "/spec.html", ""⟩ (some "/out/spec.html")
          ⟨300000, false, false⟩).2 = [(resolveOutPath "/work" p, "<p>x</p>".toList)]
        ∧ ∀ fs0, applyFS fs0 (fetchAndWrite
          ⟨"/tmp", "abc123", true, true, true, Except.ok ⟨true, 200⟩, true, true, "19.9.9",
            40, 60, ⟨true, Except.ok (), Except.ok "<p>x</p>".toList, Except.ok []⟩,
            true, true, true, true, "close failed", "/work"⟩
          ⟨"https://example.org", "/spec.html", ""⟩ (some "/out/spec.html")
          ⟨300000, false, false⟩).2 (resolveOutPath "/work" p) = some "<p>x</p>".toList) :=
  C9_output_sink
    ⟨"/tmp", "abc123", true, true, true, Except.ok ⟨true, 200⟩, true, true, "19.9.9",
      40, 60, ⟨true, Except.ok (), Except.ok "<p>x</p>".toList, Except.ok []⟩,
      true, true, true, true, "close failed", "/work"⟩
    ⟨"https://example.org", "/spec.html", ""⟩ (some "/out/spec.html")
    ⟨300000, false, false⟩ ⟨true, 200⟩ "<p>x</p>".toList
    rfl rfl rfl rfl rfl rfl rfl rfl rfl rfl rfl rfl

/-- C10 witness: a single aside example publishes number 0 with marker 1. -/
theorem C10_report_number_witness :
    ∃ rep, ((some (⟨0, false, "t", none⟩ : Report), 1) : Option Report × Nat).1 = some rep
      ∧ 1 ≤ ((some (⟨0, false, "t", none⟩ : Report), 1) : Option Report × Nat).2
      ∧ rep.number = ((some (⟨0, false, "t", none⟩ : Report), 1) : Option Report × Nat).2 - 1 :=
  C10_report_number [⟨true, false, false, "t", "c"⟩] 0 ⟨true, false, false, "t", "c"⟩
    (some ⟨0, false, "t", none⟩, 1) rfl rfl rfl

end Respec
